/-
Verification of the incident lifecycle engine of the Loganalytics backend.

The Python modules `email_agent.py`, `monitor.py`, `agent.py` and `fixer.py`
are shallowly embedded below: pure decision logic is translated to Lean
functions, external effects (Gmail, CloudWatch, PowerShell, the LLM oracle)
are supplied by explicit environment records, and stateful loops become
explicit state-passing recursion.  Logging and file appends are side effects
with no influence on control flow and are not represented.
-/
import Mathlib

namespace LogAnalytics

/-! ### Python string primitives used by the embedding -/

/-- Contiguous-sublist test on character lists. -/
def containsSublist (needle : List Char) : List Char → Bool
  | [] => needle.isEmpty
  | c :: t => needle.isPrefixOf (c :: t) || containsSublist needle t

/-- Python's substring test `needle in hay` (contiguous substring). -/
def pyIn (needle hay : String) : Bool :=
  containsSublist needle.data hay.data

/-- Python's `str.startswith(prefix)`. -/
def pyStartswith (pre s : String) : Bool :=
  pre.data.isPrefixOf s.data

/-- Python's `str.lower()` (restricted to the ASCII casing the code relies on). -/
def pyLower (s : String) : String :=
  String.mk (s.data.map Char.toLower)

/-- Characters removed by Python's `strip('<>')`. -/
def isAngle (c : Char) : Bool :=
  c = '<' || c = '>'

/-- Python's `str.strip('<>')`: drop leading and trailing angle brackets. -/
def stripAngles (s : String) : String :=
  String.mk (((s.data.dropWhile isAngle).reverse.dropWhile isAngle).reverse)

/-- Python truthiness of an optional string: `None` and `""` are falsy.
The code guards broadcasts with `if reference:`. -/
def pyTruthy : Option String → Bool
  | none => false
  | some s => s != ""

/-! ### `EmailAgent` (email_agent.py)

`analyze_reply` (lines 296-301) classifies the intent of a reply body,
`process_reply` (lines 219-273) matches an inbound reply against the pending
approval requests by the `In-Reply-To` header. -/

/-- The two intents `analyze_reply` can settle on
(`Request_approved` / `Request_declined`). -/
inductive Intent
  | approved
  | declined
deriving DecidableEq, Repr

/-- The positive keyword list of `analyze_reply` (email_agent.py line 298). -/
def positiveWords : List String :=
  ["approve", "yes", "proceed", "go ahead", "ok"]

/-- The negative keyword list of `analyze_reply` (email_agent.py line 300). -/
def negativeWords : List String :=
  ["decline", "no", "reject", "stop"]

/-- The intent classifier of `analyze_reply` (email_agent.py lines 296-301):
the default intent is declined; a positive keyword occurring as a substring
of the lowercased body yields approved; otherwise a negative keyword leaves
the intent declined. -/
def classifyIntent (body : String) : Intent :=
  let low := pyLower body
  if positiveWords.any (fun w => pyIn w low) then Intent.approved
  else if negativeWords.any (fun w => pyIn w low) then Intent.declined
  else Intent.declined

/-- One entry of `pending_requests` (email_agent.py lines 156-161). -/
structure PendingRequest where
  errorMessage : String
  source : String
  messageId : Option String
  timestamp : String
deriving DecidableEq, Repr

/-- An inbound reply as `process_reply` sees it: the stripped `In-Reply-To`
header (if present) and the extracted plain-text body. -/
structure Reply where
  inReplyTo : Option String
  body : String
deriving DecidableEq, Repr

/-- The matching test of `process_reply` (email_agent.py lines 248-256): a
pending entry matches when it has a stored message id and the two ids agree
after both are stripped of angle brackets.  Entries without `message_id` are
skipped. -/
def matchesReply (inReplyTo : String) (req : PendingRequest) : Bool :=
  match req.messageId with
  | none => false
  | some m => stripAngles m == stripAngles inReplyTo

/-- `process_reply` followed by `analyze_reply` (email_agent.py lines
219-273 and 275-352), on the in-memory `pending_requests` map, modelled as
an insertion-ordered association list (a Python dict).  The first matching
pending entry is analyzed and then deleted (`del self.pending_requests[reference]`,
line 349); only one entry is processed per reply (the `return` on line 267).
Returns the new pending map together with the resolved reference and intent,
or `none` when no entry matched (the reply is dropped with a warning). -/
def processReply (pending : List (String × PendingRequest)) (r : Reply) :
    List (String × PendingRequest) × Option (String × Intent) :=
  match r.inReplyTo with
  | none => (pending, none)
  | some irt =>
    match pending.find? (fun p => matchesReply irt p.2) with
    | none => (pending, none)
    | some (ref, _) =>
      (pending.eraseP (fun p => p.1 == ref), some (ref, classifyIntent r.body))

/-! ### `WindowsMonitor` (monitor.py lines 68-148)

Each CloudWatch event is deduplicated against `seen_event_ids`, parsed, and
— for Event ID 7003 from the Service Control Manager — turned into a fresh
incident.  Exceptions while handling one event are caught per event
(lines 140-144); a failing `filter_log_events` call is caught by the outer
handler (lines 145-148). -/

/-- Python exception classes distinguished by the `except` clauses. -/
inductive PyExc
  | jsonDecodeError
  | exception
deriving DecidableEq, Repr

/-- The parsed JSON record of one Windows CloudWatch event, i.e. the fields
`search_errors` reads (monitor.py lines 92-106).  `none` models an absent key
(`dict.get` returning `None`). -/
structure WRecord where
  eventID : Option Int
  source : Option String
  message : List String
deriving DecidableEq, Repr

/-- One Windows CloudWatch event.  `eventId` is the source-native id used for
dedup; `parse` is the outcome of `json.loads(event["message"])` (`none`
models a `JSONDecodeError`); `handlerRaises` injects an exception raised
while handling the accepted incident (for instance the analyzer call on line
126 failing), which the per-event `except` must catch. -/
structure WEvent where
  eventId : Nat
  parse : Option WRecord
  handlerRaises : Bool
deriving DecidableEq, Repr

/-- Decision taken by the Windows gate for one event. -/
inductive WDecision
  | duplicate
  | parseError
  | skippedNon7003
  | accepted (serviceName : String)
  | errorCaught
deriving DecidableEq, Repr

/-- Service-name extraction of monitor.py line 96:
`Message[0].split(" service")[0]` when the `Message` list is truthy,
otherwise "Unknown". -/
def wServiceName (message : List String) : String :=
  match message with
  | [] => "Unknown"
  | m :: _ => (m.splitOn " service").headD m

/-- The mutable state of a `ServiceMonitor`: the set of already-processed
source-native event ids (monitor.py line 28). -/
structure WState where
  seenEventIds : List Nat
deriving DecidableEq, Repr

/-- The body of the per-event `try` block (monitor.py lines 91-139): parse
the message, skip events that are not Event ID 7003 from the Service Control
Manager (line 93), otherwise create the incident; a raised
`json.JSONDecodeError` or handler exception leaves the block exceptionally.
The mode branch (email handoff versus direct analysis) does not affect the
gate decision and is where `handlerRaises` fires. -/
def wTryBody (e : WEvent) : Except PyExc WDecision :=
  match e.parse with
  | none => Except.error PyExc.jsonDecodeError
  | some w =>
    if w.eventID ≠ some 7003 ∨ w.source ≠ some "Service Control Manager" then
      Except.ok WDecision.skippedNon7003
    else if e.handlerRaises then
      Except.error PyExc.exception
    else
      Except.ok (WDecision.accepted (wServiceName w.message))

/-- The two `except` clauses of monitor.py lines 140-144: a
`json.JSONDecodeError` and any other exception are both logged and swallowed. -/
def wCatch : Except PyExc WDecision → WDecision
  | Except.ok d => d
  | Except.error PyExc.jsonDecodeError => WDecision.parseError
  | Except.error PyExc.exception => WDecision.errorCaught

/-- One iteration of the event loop (monitor.py lines 85-144): the dedup
check and the `seen_event_ids.add` (lines 86-90) precede the `try`; the
`except` clauses catch everything the body raises. -/
def processWEvent (st : WState) (e : WEvent) : WState × WDecision :=
  if st.seenEventIds.contains e.eventId then (st, WDecision.duplicate)
  else (⟨e.eventId :: st.seenEventIds⟩, wCatch (wTryBody e))

/-- The event loop of `WindowsMonitor.search_errors` over one fetched batch. -/
def processWEvents (st : WState) : List WEvent → WState × List WDecision
  | [] => (st, [])
  | e :: es =>
    let r := processWEvent st e
    let rest := processWEvents r.1 es
    (rest.1, r.2 :: rest.2)

/-- The `try` body of `search_errors` (monitor.py lines 78-144): the
CloudWatch fetch may itself raise; the per-event handling is internally
caught.  The file append in the outer handler is a logging effect, modelled
as infallible. -/
def searchErrorsWBody (st : WState) (fetch : Except PyExc (List WEvent)) :
    Except PyExc (WState × List WDecision) :=
  match fetch with
  | Except.error exc => Except.error exc
  | Except.ok evs => Except.ok (processWEvents st evs)

/-- `WindowsMonitor.search_errors` (monitor.py lines 73-148): the whole body
sits in a `try` whose handler (lines 145-148) logs and returns. -/
def searchErrorsW (st : WState) (fetch : Except PyExc (List WEvent)) :
    Except PyExc (WState × List WDecision) :=
  match searchErrorsWBody st fetch with
  | Except.ok r => Except.ok r
  | Except.error _ => Except.ok (st, [])

/-- The polling loop of `MonitorAgent.run_async` (monitor.py lines 514-532)
restricted to one monitor: each cycle runs `search_errors` on a fetch result.
An exception escaping `search_errors` would be caught at line 529 and end the
loop, dropping every remaining cycle — which is what the error branch here
records. -/
def runMonitorCycles (st : WState) :
    List (Except PyExc (List WEvent)) → WState × List (List WDecision)
  | [] => (st, [])
  | f :: fs =>
    match searchErrorsW st f with
    | Except.ok r =>
      let rest := runMonitorCycles r.1 fs
      (rest.1, r.2 :: rest.2)
    | Except.error _ => (st, [])

/-! ### `KubernetesMonitor` (monitor.py lines 214-361)

On top of the shared dedup set, this monitor keeps `cooldown_tracker`, a map
from pod key ("namespace/pod") to the last acceptance time, with a 60 second
window (lines 218-219). -/

/-- One entry of `requestObject.status.containerStatuses` as read by
monitor.py lines 262-265; `name` carries the `get("name", "unknown")`
default already applied. -/
structure KContainerStatus where
  name : String
  stateTerminatedReason : Option String
  lastStateTerminatedReason : Option String
deriving DecidableEq, Repr

/-- The parsed JSON of one Kubernetes audit event, with the fields the gate
reads (monitor.py lines 246-261): `auditSkip` is the substring test of line
247; `objNamespace`/`objName` carry the `objectRef` values with the defaults
"demo-app"/"stress-demo" of lines 250-251 applied. -/
structure KJson where
  auditSkip : Bool
  objNamespace : String
  objName : String
  containerStatuses : List KContainerStatus
deriving DecidableEq, Repr

/-- One Kubernetes CloudWatch event.  `msgHasOOM` is the substring test
`"OOMKilled" in msg` of line 243; `json` is the `json.loads` outcome (`none`
models a `JSONDecodeError`); `regexMatch` is the `(container, namespace,
pod)` triple extracted by the OOM regular expression of lines 270/315 from
the message text, when it matches. -/
structure KEvent where
  eventId : Nat
  msgHasOOM : Bool
  json : Option KJson
  regexMatch : Option (String × String × String)
deriving DecidableEq, Repr

/-- Decision taken by the Kubernetes gate for one event. -/
inductive KDecision
  | duplicate
  | noOOM
  | auditSkip
  | cooledDown
  | noDetails
  | accepted (podKey : String)
deriving DecidableEq, Repr

/-- The state of `KubernetesMonitor`: the dedup set and `cooldown_tracker`.
The tracker is a Python dict keyed by pod key; it is modelled as an
association list where assignment prepends and lookup takes the first
(newest) binding. -/
structure KState where
  seenEventIds : List Nat
  cooldownTracker : List (String × Nat)
deriving DecidableEq, Repr

/-- `cooldown_period` (monitor.py line 219). -/
def cooldownPeriod : Nat := 60

/-- The cooldown test of monitor.py lines 255-258 (and 320-323): the pod key
has a tracker entry and `current_time - last_detected < cooldown_period`,
written here as the equivalent integer comparison. -/
def kCoolActive (tracker : List (String × Nat)) (key : String)
    (currentTime : Nat) : Bool :=
  match tracker.find? (fun p => p.1 == key) with
  | none => false
  | some p => currentTime < p.2 + cooldownPeriod

/-- The container scan of monitor.py lines 262-267: the first container
status whose `state.terminated.reason` or `lastState.terminated.reason` is
"OOMKilled". -/
def kFindOOMContainer : List KContainerStatus → Option String
  | [] => none
  | s :: rest =>
    if s.stateTerminatedReason == some "OOMKilled"
        || s.lastStateTerminatedReason == some "OOMKilled" then
      some s.name
    else kFindOOMContainer rest

/-- The gate body of `KubernetesMonitor.search_errors` past the dedup check
(monitor.py lines 241-357).  `currentTime` is the `current_time` captured
once per call (line 224).  In the JSON path the cooldown is checked against
the objectRef-derived pod key (lines 254-259); when no OOMKilled container
status is found, the regex fallback of lines 268-278 reassigns `pod_key`
and the acceptance at lines 281-282 records the cooldown entry for the
reassigned key without re-checking its window.  The non-JSON path (lines
313-357) checks the cooldown on the regex-derived key.  The autonomous-mode
refresh of the accepted entry's timestamp (lines 312/355) only moves it
later within the same call and is not represented. -/
def kGateBody (tracker : List (String × Nat)) (currentTime : Nat)
    (e : KEvent) : List (String × Nat) × KDecision :=
  if e.msgHasOOM = false then (tracker, KDecision.noOOM)
  else
    match e.json with
    | some j =>
      if j.auditSkip then (tracker, KDecision.auditSkip)
      else
        let podKey := j.objNamespace ++ "/" ++ j.objName
        if kCoolActive tracker podKey currentTime then
          (tracker, KDecision.cooledDown)
        else
          match kFindOOMContainer j.containerStatuses with
          | some _ =>
            ((podKey, currentTime) :: tracker, KDecision.accepted podKey)
          | none =>
            match e.regexMatch with
            | some (_, ns, pod) =>
              let podKey2 := ns ++ "/" ++ pod
              ((podKey2, currentTime) :: tracker, KDecision.accepted podKey2)
            | none => (tracker, KDecision.noDetails)
    | none =>
      match e.regexMatch with
      | some (_, ns, pod) =>
        let podKey := ns ++ "/" ++ pod
        if kCoolActive tracker podKey currentTime then
          (tracker, KDecision.cooledDown)
        else
          ((podKey, currentTime) :: tracker, KDecision.accepted podKey)
      | none => (tracker, KDecision.noDetails)

/-- One iteration of `KubernetesMonitor.search_errors` over one event: the
dedup check and the `seen_event_ids.add` of lines 236-240 followed by the
gate body above. -/
def processKEvent (st : KState) (currentTime : Nat) (e : KEvent) :
    KState × KDecision :=
  if st.seenEventIds.contains e.eventId then (st, KDecision.duplicate)
  else
    let r := kGateBody st.cooldownTracker currentTime e
    (⟨e.eventId :: st.seenEventIds, r.1⟩, r.2)

/-- The event loop of `KubernetesMonitor.search_errors` over one fetched
batch, with the per-call `current_time`. -/
def processKEvents (st : KState) (currentTime : Nat) :
    List KEvent → KState × List KDecision
  | [] => (st, [])
  | e :: es =>
    let r := processKEvent st currentTime e
    let rest := processKEvents r.1 currentTime es
    (rest.1, r.2 :: rest.2)

/-! ### `WindowsRemediator` (fixer.py lines 30-162)

`apply_remediation` executes a plan with at most `max_retries = 3` attempts;
a failing step on a non-final attempt triggers an LLM regeneration of the
plan (validated, with a deterministic default on an invalid or unparsable
reply); only a fully successful pass broadcasts, and the broadcast joins the
*original* `remediation_steps` (line 153). -/

/-- The result of `FixerAgent._execute_powershell_command`: a success flag
and the command output (fixer.py lines 372-473). -/
structure ExecResult where
  success : Bool
  output : String
deriving DecidableEq, Repr

/-- Outcome of the LLM regeneration call of fixer.py lines 93-136: the API
call raises (caught on line 130), `json.loads` raises (caught on line 123),
or a JSON object parses, carrying a "remediation_steps" list or not. -/
inductive LLMOutcome
  | apiError
  | parseError
  | parsed (steps : Option (List String))
deriving Repr

/-- The external world of the Windows remediator: PowerShell execution
results and LLM replies, indexed by the attempt counter (their actual
arguments — prompt text, failing step — are in scope at each call site, so
indexing by attempt loses no generality for the properties proved here). -/
structure WinEnv where
  exec : Nat → String → ExecResult
  llm : Nat → LLMOutcome

/-- Python's word character class `\w` (ASCII). -/
def isWordChar (c : Char) : Bool :=
  c.isAlphanum || c = '_'

/-- Python's whitespace class `\s` (ASCII forms). -/
def isPySpace (c : Char) : Bool :=
  c = ' ' || c = '\t' || c = '\n' || c = '\r' || c = '\x0b' || c = '\x0c'

/-- Match the regex tail `\s+(\w+)` at the start of `cs` and return the
captured word.  Maximal munch is exact here because a word character is
never whitespace. -/
def matchSpacesWord (cs : List Char) : Option String :=
  match cs with
  | [] => none
  | c :: rest =>
    if isPySpace c then
      let word := (rest.dropWhile isPySpace).takeWhile isWordChar
      if word.isEmpty then none else some (String.mk word)
    else none

/-- Match the regex tail `\s+['\"]?(\w+)` at the start of `cs`. -/
def matchSpacesQuoteWord (cs : List Char) : Option String :=
  match cs with
  | [] => none
  | c :: rest =>
    if isPySpace c then
      let rest2 := rest.dropWhile isPySpace
      let rest3 :=
        match rest2 with
        | q :: r2 => if q = '\'' || q = '"' then r2 else rest2
        | [] => rest2
      let word := rest3.takeWhile isWordChar
      if word.isEmpty then none else some (String.mk word)
    else none

/-- `re.search(lit + "\s+(\w+)", s)` (fixer.py line 57): scan left to right
for the literal followed by whitespace and a word; a failed tail resumes the
search one position later. -/
def searchLitSpacesWord (lit : List Char) : List Char → Option String
  | [] => none
  | c :: rest =>
    if lit.isPrefixOf (c :: rest) then
      match matchSpacesWord ((c :: rest).drop lit.length) with
      | some w => some w
      | none => searchLitSpacesWord lit rest
    else searchLitSpacesWord lit rest

/-- `re.search(lit + "\s+['\"]?(\w+)", s)` (fixer.py line 61). -/
def searchLitSpacesQuoteWord (lit : List Char) : List Char → Option String
  | [] => none
  | c :: rest =>
    if lit.isPrefixOf (c :: rest) then
      match matchSpacesQuoteWord ((c :: rest).drop lit.length) with
      | some w => some w
      | none => searchLitSpacesQuoteWord lit rest
    else searchLitSpacesQuoteWord lit rest

/-- Service-name extraction from a failing step (fixer.py lines 55-63). -/
def extractServiceName (step : String) : Option String :=
  if pyStartswith "cmd /c \"sc config" step || pyStartswith "sc config" step then
    searchLitSpacesWord "sc config".data step.data
  else if pyStartswith "Start-Service" step then
    searchLitSpacesQuoteWord "Start-Service -Name".data step.data
  else none

/-- The `Get-Service -Name` normalization lookup command (fixer.py line 66). -/
def normNameCmd (n : String) : String :=
  "Get-Service -Name '" ++ n ++
    "' -ErrorAction SilentlyContinue | Select-Object -ExpandProperty Name"

/-- The `Get-Service -DisplayName` normalization lookup command (fixer.py
line 71). -/
def normDisplayNameCmd (n : String) : String :=
  "Get-Service -DisplayName '" ++ n ++
    "' -ErrorAction SilentlyContinue | Select-Object -ExpandProperty Name"

/-- Service-name normalization (fixer.py lines 65-74): try the name lookup,
then the display-name lookup; keep the extracted name when both fail or
return blank output. -/
def normalizeServiceName (env : WinEnv) (attempt : Nat) (n : String) : String :=
  let r1 := env.exec attempt (normNameCmd n)
  if r1.success && r1.output.trim != "" then r1.output.trim
  else
    let r2 := env.exec attempt (normDisplayNameCmd n)
    if r2.success && r2.output.trim != "" then r2.output.trim
    else n

/-- The deterministic default plan of fixer.py lines 117-120 (also 125-128
and 132-135), for `service_name or 'Spooler'`. -/
def defaultWinSteps (n : String) : List String :=
  ["cmd /c \"sc config " ++ n ++ " depend= RPCSS\"",
   "Start-Service -Name " ++ n]

/-- The two-command plan validation shared by the analyzer (agent.py lines
318-322) and the regeneration check (fixer.py lines 111-115): exactly two
steps, the first starting with the `sc config <n> depend=` prefix and the
second with `Start-Service -Name <n>`. -/
def validWinPlan (n : String) (l : List String) : Bool :=
  l.length == 2 &&
  pyStartswith ("cmd /c \"sc config " ++ n ++ " depend=") (l.headD "") &&
  pyStartswith ("Start-Service -Name " ++ n) ((l.drop 1).headD "")

/-- The per-step validity filter of the Windows remediator (fixer.py lines
40-45); steps are modelled as strings, so the `isinstance(step, str)` guard
always holds. -/
def validWinStep (step : String) : Bool :=
  pyStartswith "cmd /c \"sc config " step ||
  pyStartswith "sc config " step ||
  pyStartswith "Start-Service -Name " step ||
  pyStartswith "Get-Service " step

/-- `max_retries` (fixer.py line 32). -/
def maxRetries : Nat := 3

/-- Plan regeneration after a failed step (fixer.py lines 54-136): extract
and normalize the service name, call the LLM; an API or JSON failure yields
the default plan; a parsed reply yields its "remediation_steps" (keeping the
current plan when the key is absent), replaced by the default plan when the
two-command validation fails. -/
def regenerateSteps (env : WinEnv) (attempt : Nat) (failedStep : String)
    (cur : List String) : List String :=
  let sn :=
    match extractServiceName failedStep with
    | none => none
    | some s => some (normalizeServiceName env attempt s)
  let n := sn.getD "Spooler"
  match env.llm attempt with
  | LLMOutcome.apiError => defaultWinSteps n
  | LLMOutcome.parseError => defaultWinSteps n
  | LLMOutcome.parsed osteps =>
    let cand := osteps.getD cur
    if validWinPlan n cand then cand else defaultWinSteps n

/-- The outcome of one pass over the current plan (the `for step in
current_steps` loop, fixer.py lines 39-138): either the loop completed with
the final `step_success` flag, or a failing step on a non-final attempt
regenerated the plan and broke out.  The trace lists the steps actually
passed to the executor. -/
inductive StepsOutcome
  | done (stepOk : Bool) (trace : List String)
  | regen (next : List String) (trace : List String)
deriving DecidableEq, Repr

/-- One pass over the plan (fixer.py lines 39-138): invalid steps are
skipped; a failing step regenerates and breaks when `attempt < max_retries`,
and otherwise clears `step_success` and lets the loop continue. -/
def runWinSteps (env : WinEnv) (attempt : Nat) (cur : List String) :
    List String → Bool → StepsOutcome
  | [], stepOk => StepsOutcome.done stepOk []
  | s :: rest, stepOk =>
    if validWinStep s = false then runWinSteps env attempt cur rest stepOk
    else
      let r := env.exec attempt s
      if r.success then
        match runWinSteps env attempt cur rest stepOk with
        | StepsOutcome.done ok tr => StepsOutcome.done ok (s :: tr)
        | StepsOutcome.regen nxt tr => StepsOutcome.regen nxt (s :: tr)
      else if attempt < maxRetries then
        StepsOutcome.regen (regenerateSteps env attempt s cur) [s]
      else
        match runWinSteps env attempt cur rest false with
        | StepsOutcome.done ok tr => StepsOutcome.done ok (s :: tr)
        | StepsOutcome.regen nxt tr => StepsOutcome.regen nxt (s :: tr)

/-- Accumulated result of the retry loop. -/
structure WinRunResult where
  success : Bool
  attemptsUsed : Nat
  executed : List (Nat × String)
  finalSteps : List String
deriving DecidableEq, Repr

/-- The `while attempt <= max_retries` loop (fixer.py lines 37-150), with
the remaining attempt budget as fuel.  A fully successful pass ends the loop
(`break` on line 149; the post-success `Get-Service` status logging of lines
141-148 has no effect on the outcome and is not represented); otherwise the
loop continues with the regenerated plan (or the same plan after a final
failed attempt) and `attempt + 1`. -/
def winLoop (env : WinEnv) : Nat → Nat → List String → WinRunResult
  | 0, attempt, cur => ⟨false, attempt - 1, [], cur⟩
  | fuel + 1, attempt, cur =>
    match runWinSteps env attempt cur cur true with
    | StepsOutcome.done true tr =>
      ⟨true, attempt, tr.map (fun s => (attempt, s)), cur⟩
    | StepsOutcome.done false tr =>
      let rest := winLoop env fuel (attempt + 1) cur
      ⟨rest.success, rest.attemptsUsed,
       tr.map (fun s => (attempt, s)) ++ rest.executed, rest.finalSteps⟩
    | StepsOutcome.regen nxt tr =>
      let rest := winLoop env fuel (attempt + 1) nxt
      ⟨rest.success, rest.attemptsUsed,
       tr.map (fun s => (attempt, s)) ++ rest.executed, rest.finalSteps⟩

/-- A WebSocket broadcast as `_async_broadcast` sends it. -/
structure BroadcastMsg where
  agent : String
  status : String
  details : String
deriving DecidableEq, Repr

/-- The `details` string of the remediation broadcast (fixer.py lines
153-160, identically at 192-199, 229-236). -/
def remediationDetails (commands : List String) : String :=
  "remediation applied\nLATEST\n\nExecuting remediation command\n\nCommands:\n"
    ++ String.intercalate "\n" commands

/-- The full apply_remediation result: outcome plus the broadcast sent. -/
structure WinApplyResult where
  success : Bool
  attemptsUsed : Nat
  executed : List (Nat × String)
  finalSteps : List String
  broadcast : Option BroadcastMsg
deriving DecidableEq, Repr

/-- `WindowsRemediator.apply_remediation` (fixer.py lines 31-162): run the
retry loop from attempt 1 on a copy of the plan; broadcast only `if success
and reference:` (line 151), joining the *original* `remediation_steps`
(line 153), not the plan of the terminal attempt. -/
def applyRemediationWin (env : WinEnv) (remediationSteps : List String)
    (reference : Option String) : WinApplyResult :=
  let r := winLoop env maxRetries 1 remediationSteps
  let b :=
    if r.success && pyTruthy reference then
      some (BroadcastMsg.mk "FixerAgent" "remediation applied"
        (remediationDetails remediationSteps))
    else none
  ⟨r.success, r.attemptsUsed, r.executed, r.finalSteps, b⟩

/-! ### `SnowflakeRemediator` and `KubernetesRemediator` (fixer.py lines
164-239)

Both run a single pass over the plan: per-step failures clear `step_success`
but the loop continues; a pass with no failure (in particular over an empty
plan) reports success and broadcasts "remediation applied" when a truthy
reference is present. -/

/-- Tokens of the fixed GRANT pattern: a case-insensitive literal, `\s*`,
`\s+`, and `.*` (`.` not matching a newline). -/
inductive RTok
  | lit (cs : List Char)
  | starDot
  | starSpace
  | plusSpace
deriving Repr

/-- Case-insensitive literal match; returns the remaining input. -/
def litPrefixCI : List Char → List Char → Option (List Char)
  | [], cs => some cs
  | _ :: _, [] => none
  | l :: ls, c :: cs => if l.toLower = c.toLower then litPrefixCI ls cs else none

/-- Fuel-bounded backtracking matcher for a token pattern against the whole
input.  The empty pattern accepts exactly what the regex `$` of a
non-MULTILINE Python pattern accepts: end of input or one trailing newline.
Every recursive call consumes a token or a character, so fuel beyond
pattern length + input length + 1 never runs out. -/
def rMatchF : Nat → List RTok → List Char → Bool
  | 0, _, _ => false
  | fuel + 1, ps, cs =>
    match ps with
    | [] => cs.isEmpty || cs == ['\n']
    | RTok.lit l :: ps2 =>
      match litPrefixCI l cs with
      | some rest => rMatchF fuel ps2 rest
      | none => false
    | RTok.starDot :: ps2 =>
      rMatchF fuel ps2 cs ||
      (match cs with
       | [] => false
       | c :: rest => decide (c ≠ '\n') && rMatchF fuel (RTok.starDot :: ps2) rest)
    | RTok.starSpace :: ps2 =>
      rMatchF fuel ps2 cs ||
      (match cs with
       | [] => false
       | c :: rest => isPySpace c && rMatchF fuel (RTok.starSpace :: ps2) rest)
    | RTok.plusSpace :: ps2 =>
      match cs with
      | [] => false
      | c :: rest => isPySpace c && rMatchF fuel (RTok.starSpace :: ps2) rest

/-- The pattern `^\s*GRANT\s+.*\s+ON\s+.*\s+TO\s+.*;$` of fixer.py line 177
(compiled with IGNORECASE; `re.match` anchors it at the start). -/
def grantPattern : List RTok :=
  [RTok.starSpace, RTok.lit "grant".data, RTok.plusSpace, RTok.starDot,
   RTok.plusSpace, RTok.lit "on".data, RTok.plusSpace, RTok.starDot,
   RTok.plusSpace, RTok.lit "to".data, RTok.plusSpace, RTok.starDot,
   RTok.lit ";".data]

/-- The safe-GRANT test guarding `cursor.execute` (fixer.py line 177). -/
def matchesGrantRe (s : String) : Bool :=
  rMatchF (s.data.length + 16) grantPattern s.data

/-- A remediation step as the Snowflake remediator receives it (fixer.py
lines 170-176): a JSON object carrying a "command" key, a plain string, or
any other shape (skipped with a warning — a dict without the key included). -/
inductive SfStep
  | dict (command : String)
  | str (s : String)
  | other
deriving DecidableEq, Repr

/-- The Snowflake cursor: `exec idx cmd` is true when `cursor.execute`
succeeds for the `idx`-th step, false when it raises (caught on line 182). -/
structure SfEnv where
  exec : Nat → String → Bool

/-- One iteration of the Snowflake step loop (fixer.py lines 168-186):
returns the surviving `step_success` contribution of this step. -/
def snowflakeStepRun (env : SfEnv) (idx : Nat) (step : SfStep) : Bool :=
  match step with
  | SfStep.other => true
  | SfStep.dict c => if matchesGrantRe c then env.exec idx c else true
  | SfStep.str c => if matchesGrantRe c then env.exec idx c else true

/-- The step loop: `step_success` is the conjunction of the per-step runs
(the loop never breaks). -/
def sfLoop (env : SfEnv) (idx : Nat) : List SfStep → Bool
  | [] => true
  | s :: rest => snowflakeStepRun env idx s && sfLoop env (idx + 1) rest

/-- The display string of a step for the broadcast join of fixer.py line
192; a non-string step there would raise a `TypeError` in the source, so the
join is only meaningful (and only evaluated by the theorems) on string
steps. -/
def sfStepDisplay : SfStep → String
  | SfStep.str s => s
  | SfStep.dict c => c
  | SfStep.other => ""

/-- `SnowflakeRemediator.apply_remediation` (fixer.py lines 164-202):
a pass with no failed step returns `True` and broadcasts "remediation
applied" when the reference is truthy; any failure returns `False` with no
broadcast. -/
def snowflakeApplyRemediation (env : SfEnv) (steps : List SfStep)
    (reference : Option String) : Bool × Option BroadcastMsg :=
  let stepSuccess := sfLoop env 0 steps
  if stepSuccess then
    (true,
     if pyTruthy reference then
       some (BroadcastMsg.mk "FixerAgent" "remediation applied"
         (remediationDetails (steps.map sfStepDisplay)))
     else none)
  else (false, none)

/-- The Kubernetes effector: `run idx step` is the `subprocess.run` return
code for the `idx`-th step, or an error when the call raises (caught on
line 220). -/
structure K8sEnv where
  run : Nat → String → Except Unit Int

/-- One iteration of the Kubernetes step loop (fixer.py lines 207-224):
only `kubectl apply -f` / `kubectl delete pod` commands run; a nonzero
return code or a raised exception clears `step_success`; other steps are
skipped with a warning. -/
def k8sStepRun (env : K8sEnv) (idx : Nat) (step : String) : Bool :=
  if pyStartswith "kubectl apply -f" step || pyStartswith "kubectl delete pod" step then
    match env.run idx step with
    | Except.ok code => code == 0
    | Except.error _ => false
  else true

/-- The Kubernetes step loop (never breaks). -/
def k8sLoop (env : K8sEnv) (idx : Nat) : List String → Bool
  | [] => true
  | s :: rest => k8sStepRun env idx s && k8sLoop env (idx + 1) rest

/-- `KubernetesRemediator.apply_remediation` (fixer.py lines 204-239). -/
def k8sApplyRemediation (env : K8sEnv) (steps : List String)
    (reference : Option String) : Bool × Option BroadcastMsg :=
  let stepSuccess := k8sLoop env 0 steps
  if stepSuccess then
    (true,
     if pyTruthy reference then
       some (BroadcastMsg.mk "FixerAgent" "remediation applied"
         (remediationDetails steps))
     else none)
  else (false, none)

/-! ### The analyzers (agent.py) and the fix-queue handoff (fixer.py lines
512-540) -/

/-- The outcome of one analysis: the fields of the result dict that the
callers read, with the `dict.get` defaults the queue writers apply
(`root_cause` defaulting to "Unknown", `remediation_steps` to `[]`), plus
the status string of the broadcast the analyzer sent. -/
structure AnalysisResult where
  rootCause : String
  steps : List String
  status : String
deriving DecidableEq, Repr

/-- Oracle outcome for the Windows analyzer's remediation prompt (agent.py
lines 290-316): the API call raises (caught on line 340), `json.loads`
raises (caught on line 308), or a JSON object parses. -/
inductive WinOracleReply
  | apiError
  | parseError
  | parsed (rootCause : Option String) (steps : Option (List String))
deriving Repr

/-- The fallback plan of agent.py lines 312-315 / 324-327 / 342-345, built
from the normalized service name and the joined valid dependencies. -/
def winFallbackSteps (n d : String) : List String :=
  ["cmd /c \"sc config " ++ n ++ " depend= " ++ d ++ "\"",
   "Start-Service -Name " ++ n]

/-- The default root-cause string of agent.py lines 311/329/347. -/
def winDefaultRootCause (n depDisplay : String) : String :=
  "Service " ++ n ++ " failed to start due to invalid dependency " ++ depDisplay

/-- The plan-selection core of `WindowsErrorAnalyzer.analyze_and_broadcast`
(agent.py lines 290-357), given the normalized service name `n`, the joined
dependency string `d` and `depDisplay = dependency or 'unknown'`.  A parse
failure substitutes the fallback dict (lines 310-316) which then passes the
validation of lines 318-327; a parsed reply's steps are validated and
replaced by the fallback when invalid; an API error returns the fallback
with an "analysis failed" broadcast (lines 340-357). -/
def winAnalyzeAndBroadcast (n d depDisplay : String) (reply : WinOracleReply) :
    AnalysisResult :=
  match reply with
  | WinOracleReply.apiError =>
    ⟨winDefaultRootCause n depDisplay, winFallbackSteps n d, "analysis failed"⟩
  | WinOracleReply.parseError =>
    let cand := winFallbackSteps n d
    ⟨winDefaultRootCause n depDisplay,
     if validWinPlan n cand then cand else winFallbackSteps n d,
     "analysis complete"⟩
  | WinOracleReply.parsed rc osteps =>
    let cand := osteps.getD []
    ⟨rc.getD (winDefaultRootCause n depDisplay),
     if validWinPlan n cand then cand else winFallbackSteps n d,
     "analysis complete"⟩

/-- The no-service-name early return of agent.py lines 242-255: an empty
plan with an "analysis failed" broadcast. -/
def winAnalyzeNoServiceName : AnalysisResult :=
  ⟨"Failed to extract service information", [], "analysis failed"⟩

/-- Oracle outcome for the Snowflake analyzer (agent.py lines 395-448). -/
inductive SfOracleReply
  | parseError (replyContent : String)
  | apiError (errText : String)
  | parsed (rootCause : Option String) (steps : Option (List String))
deriving Repr

/-- `SnowflakeErrorAnalyzer.analyze_and_broadcast` (agent.py lines 372-448):
a JWT-invalid error message short-circuits to an empty plan with an
"analysis complete" broadcast (lines 373-385); a parsed reply is returned
as-is with no plan validation; a JSON parse failure returns the raw reply
text as the single step (line 425) and an API error the error text (line
439), both broadcast "analysis failed" yet still returned to the caller. -/
def snowflakeAnalyzeAndBroadcast (errorMessage : String)
    (reply : SfOracleReply) : AnalysisResult :=
  if pyIn "JWT token is invalid" errorMessage then
    ⟨"Invalid JWT token for Snowflake key pair authentication", [],
     "analysis complete"⟩
  else
    match reply with
    | SfOracleReply.parsed rc osteps =>
      ⟨rc.getD "Unknown", osteps.getD [], "analysis complete"⟩
    | SfOracleReply.parseError replyContent =>
      ⟨"Failed to parse JSON from LLM", [replyContent], "analysis failed"⟩
    | SfOracleReply.apiError e =>
      ⟨"Failed to analyze", ["Error: " ++ e], "analysis failed"⟩

/-- One record of `fix_queue.json` as `FixerAgent.run_async` reads it
(fixer.py lines 524-539). -/
structure FixRecord where
  errorMessage : String
  rootCause : String
  remediationSteps : List String
  source : String
  reference : Option String
deriving DecidableEq, Repr

/-- The snowflake branch of `FixerAgent.receive_error` (fixer.py lines
512-518): the snowflake remediator is registered only when the Snowflake
connection exists (line 327); an unregistered source is skipped (`none`);
otherwise the plan from the queue record is handed to
`SnowflakeRemediator.apply_remediation` unchanged. -/
def receiveErrorSnowflake (connected : Bool) (env : SfEnv) (r : FixRecord) :
    Option (Bool × Option BroadcastMsg) :=
  if r.source == "snowflake" && connected then
    some (snowflakeApplyRemediation env (r.remediationSteps.map SfStep.str)
      r.reference)
  else none

/-! Helper lemmas for the pending-approval map. -/

theorem find?_eq_head?_filter (p : α → Bool) (l : List α) :
    l.find? p = (l.filter p).head? := by
  induction l with
  | nil => rfl
  | cons a t ih =>
    rw [List.find?_cons, List.filter_cons]
    cases h : p a
    · exact ih
    · rfl

theorem filter_eraseP_of_unique_match
    (irt : String) (ref : String) (req : PendingRequest)
    (pending : List (String × PendingRequest))
    (hkeys : (pending.map Prod.fst).Nodup)
    (hmatch : pending.filter (fun p => matchesReply irt p.2) = [(ref, req)]) :
    (pending.eraseP (fun p => p.1 == ref)).filter
      (fun p => matchesReply irt p.2) = [] := by
  induction pending with
  | nil => simp at hmatch
  | cons a t ih =>
    simp only [List.map_cons, List.nodup_cons] at hkeys
    by_cases hma : matchesReply irt a.2
    · have h1 : (a :: t).filter (fun p => matchesReply irt p.2)
          = a :: t.filter (fun p => matchesReply irt p.2) := by
        simp [List.filter_cons, hma]
      rw [h1] at hmatch
      have ha : a = (ref, req) := (List.cons_eq_cons.mp hmatch).1
      have ht : t.filter (fun p => matchesReply irt p.2) = [] :=
        (List.cons_eq_cons.mp hmatch).2
      have h2 : (a :: t).eraseP (fun p => p.1 == ref) = t := by
        subst ha; simp
      rw [h2]
      exact ht
    · have h1 : (a :: t).filter (fun p => matchesReply irt p.2)
          = t.filter (fun p => matchesReply irt p.2) := by
        simp [List.filter_cons, hma]
      rw [h1] at hmatch
      have hk : ¬ a.1 = ref := by
        intro haref
        have hmem : (ref, req) ∈ t := by
          have hf : (ref, req) ∈ t.filter (fun p => matchesReply irt p.2) := by
            rw [hmatch]; exact List.mem_singleton.mpr rfl
          exact List.mem_of_mem_filter hf
        have hrefmem : ref ∈ t.map Prod.fst :=
          List.mem_map.mpr ⟨(ref, req), hmem, rfl⟩
        exact hkeys.1 (haref ▸ hrefmem)
      have h2 : (a :: t).eraseP (fun p => p.1 == ref)
          = a :: t.eraseP (fun p => p.1 == ref) := by
        simp [List.eraseP_cons, hk]
      rw [h2]
      have h3 : (a :: t.eraseP (fun p => p.1 == ref)).filter
          (fun p => matchesReply irt p.2)
          = (t.eraseP (fun p => p.1 == ref)).filter
              (fun p => matchesReply irt p.2) := by
        simp [List.filter_cons, hma]
      rw [h3]
      exact ih hkeys.2 hmatch

/-- C1: For every pending approval request and every inbound human reply
whose in-reply-to id exactly matches the stored outbound message id of that
request (and, per the stated invariant, that request is the only pending
entry matching the id), the reply resolves that request exactly once: the
first delivery removes the pending entry and reports the resolved reference,
and a second delivery of the same reply finds no match and changes nothing. -/
theorem approval_reply_resolves_exactly_once
    (pending : List (String × PendingRequest)) (irt body : String)
    (ref : String) (req : PendingRequest)
    (hkeys : (pending.map Prod.fst).Nodup)
    (hmatch : pending.filter (fun p => matchesReply irt p.2) = [(ref, req)]) :
    processReply pending ⟨some irt, body⟩ =
      (pending.eraseP (fun p => p.1 == ref), some (ref, classifyIntent body)) ∧
    processReply (pending.eraseP (fun p => p.1 == ref)) ⟨some irt, body⟩ =
      (pending.eraseP (fun p => p.1 == ref), none) := by
  have hfind : pending.find? (fun p => matchesReply irt p.2) = some (ref, req) := by
    rw [find?_eq_head?_filter, hmatch]; rfl
  have herased := filter_eraseP_of_unique_match irt ref req pending hkeys hmatch
  constructor
  · simp only [processReply, hfind]
  · have hfind2 : (pending.eraseP (fun p => p.1 == ref)).find?
        (fun p => matchesReply irt p.2) = none := by
      rw [find?_eq_head?_filter, herased]; rfl
    simp only [processReply, hfind2]

/-- Witness for C1 at a concrete pending map and reply. -/
theorem approval_reply_resolves_exactly_once_witness :
    processReply [("r1", ⟨"err", "windows", some "<mid-1>", "t0"⟩)]
        ⟨some "mid-1", "Approve"⟩ =
      ([], some ("r1", Intent.approved)) ∧
    processReply [] ⟨some "mid-1", "Approve"⟩ = ([], none) := by
  have h := approval_reply_resolves_exactly_once
    [("r1", ⟨"err", "windows", some "<mid-1>", "t0"⟩)] "mid-1" "Approve"
    "r1" ⟨"err", "windows", some "<mid-1>", "t0"⟩
    (by decide) (by decide)
  constructor
  · have h1 := h.1
    rw [h1]
    decide
  · have h2 := h.2
    rw [show ([("r1", (⟨"err", "windows", some "<mid-1>", "t0"⟩ : PendingRequest))].eraseP
        (fun p => p.1 == "r1")) = [] from by decide] at h2
    exact h2

/-- C2 counterexample: the reply body "Do not proceed" expresses decline and
contains the negative keyword "no" (inside "not"), yet the classifier returns
approved, because the positive keyword scan (which matches "proceed") runs
first.  This refutes the claim that a body containing negative intent is
always classified as declined. -/
theorem classifyIntent_negative_body_approved :
    classifyIntent "Do not proceed" = Intent.approved ∧
    (negativeWords.any (fun w => pyIn w (pyLower "Do not proceed"))) = true := by
  decide

/-- C2 (amended): the classifier returns exactly one of approved and declined
and is biased by keyword precedence, not safety: it returns approved exactly
when some positive keyword ("approve", "yes", "proceed", "go ahead", "ok")
occurs in the lowercased body, and declined otherwise; in particular any body
with no positive keyword (ambiguous or empty included) is declined, but a
body that also contains negative intent is still classified approved whenever
a positive keyword occurs in it. -/
theorem classifyIntent_positive_precedence (body : String) :
    classifyIntent body =
      (if positiveWords.any (fun w => pyIn w (pyLower body)) then Intent.approved
       else Intent.declined) := by
  unfold classifyIntent
  by_cases h : positiveWords.any (fun w => pyIn w (pyLower body)) = true
  · simp [h]
  · simp [h]

/-! Helper lemmas about the two event loops. -/

theorem processWEvents_length (st : WState) (es : List WEvent) :
    (processWEvents st es).2.length = es.length := by
  induction es generalizing st with
  | nil => rfl
  | cons e es ih => simp [processWEvents, ih]

theorem processKEvents_length (st : KState) (now : Nat) (es : List KEvent) :
    (processKEvents st now es).2.length = es.length := by
  induction es generalizing st with
  | nil => rfl
  | cons e es ih => simp [processKEvents, ih]

theorem processWEvent_of_seen (st : WState) (e : WEvent)
    (h : st.seenEventIds.contains e.eventId = true) :
    processWEvent st e = (st, WDecision.duplicate) := by
  unfold processWEvent
  rw [if_pos h]

theorem processKEvent_of_seen (st : KState) (now : Nat) (e : KEvent)
    (h : st.seenEventIds.contains e.eventId = true) :
    processKEvent st now e = (st, KDecision.duplicate) := by
  unfold processKEvent
  rw [if_pos h]

theorem processWEvent_seen_self (st : WState) (e : WEvent) :
    (processWEvent st e).1.seenEventIds.contains e.eventId = true := by
  unfold processWEvent
  by_cases h : st.seenEventIds.contains e.eventId = true
  · rw [if_pos h]; exact h
  · rw [if_neg h]; simp [List.contains_cons]

theorem processKEvent_seen_self (st : KState) (now : Nat) (e : KEvent) :
    (processKEvent st now e).1.seenEventIds.contains e.eventId = true := by
  unfold processKEvent
  by_cases h : st.seenEventIds.contains e.eventId = true
  · rw [if_pos h]; exact h
  · rw [if_neg h]; simp [List.contains_cons]

theorem processWEvent_seen_mono (st : WState) (e : WEvent) (x : Nat)
    (hx : st.seenEventIds.contains x = true) :
    (processWEvent st e).1.seenEventIds.contains x = true := by
  unfold processWEvent
  by_cases h : st.seenEventIds.contains e.eventId = true
  · rw [if_pos h]; exact hx
  · rw [if_neg h]; simp [List.contains_cons] at hx ⊢; exact Or.inr hx

theorem processKEvent_seen_mono (st : KState) (now : Nat) (e : KEvent)
    (x : Nat) (hx : st.seenEventIds.contains x = true) :
    (processKEvent st now e).1.seenEventIds.contains x = true := by
  unfold processKEvent
  by_cases h : st.seenEventIds.contains e.eventId = true
  · rw [if_pos h]; exact hx
  · rw [if_neg h]; simp [List.contains_cons] at hx ⊢; exact Or.inr hx

theorem processWEvents_seen_mono (st : WState) (es : List WEvent) (x : Nat)
    (hx : st.seenEventIds.contains x = true) :
    (processWEvents st es).1.seenEventIds.contains x = true := by
  induction es generalizing st with
  | nil => exact hx
  | cons e es ih => exact ih _ (processWEvent_seen_mono st e x hx)

theorem processKEvents_seen_mono (st : KState) (now : Nat) (es : List KEvent)
    (x : Nat) (hx : st.seenEventIds.contains x = true) :
    (processKEvents st now es).1.seenEventIds.contains x = true := by
  induction es generalizing st with
  | nil => exact hx
  | cons e es ih => exact ih _ (processKEvent_seen_mono st now e x hx)

theorem processWEvents_get (st : WState) (es : List WEvent) (j : Nat)
    (hj : j < es.length) :
    (processWEvents st es).2.get ⟨j, by rw [processWEvents_length]; exact hj⟩ =
      (processWEvent (processWEvents st (es.take j)).1 (es.get ⟨j, hj⟩)).2 := by
  induction es generalizing st j with
  | nil => exact absurd hj (by simp)
  | cons e es ih =>
    cases j with
    | zero => rfl
    | succ j' => exact ih (processWEvent st e).1 j' (Nat.lt_of_succ_lt_succ hj)

theorem processKEvents_get (st : KState) (now : Nat) (es : List KEvent)
    (j : Nat) (hj : j < es.length) :
    (processKEvents st now es).2.get
        ⟨j, by rw [processKEvents_length]; exact hj⟩ =
      (processKEvent (processKEvents st now (es.take j)).1 now
        (es.get ⟨j, hj⟩)).2 := by
  induction es generalizing st j with
  | nil => exact absurd hj (by simp)
  | cons e es ih =>
    cases j with
    | zero => rfl
    | succ j' =>
      exact ih (processKEvent st now e).1 j' (Nat.lt_of_succ_lt_succ hj)

theorem processWEvents_seen_of_earlier (st : WState) (es : List WEvent)
    (i j : Nat) (hi : i < es.length) (hij : i < j) :
    (processWEvents st (es.take j)).1.seenEventIds.contains
      (es.get ⟨i, hi⟩).eventId = true := by
  induction es generalizing st i j with
  | nil => exact absurd hi (by simp)
  | cons e es ih =>
    cases j with
    | zero => exact absurd hij (Nat.not_lt_zero i)
    | succ j' =>
      cases i with
      | zero =>
        show (processWEvents (processWEvent st e).1
            (es.take j')).1.seenEventIds.contains e.eventId = true
        exact processWEvents_seen_mono _ _ _ (processWEvent_seen_self st e)
      | succ i' =>
        exact ih (processWEvent st e).1 i' j'
          (Nat.lt_of_succ_lt_succ hi) (Nat.lt_of_succ_lt_succ hij)

theorem processKEvents_seen_of_earlier (st : KState) (now : Nat)
    (es : List KEvent) (i j : Nat) (hi : i < es.length) (hij : i < j) :
    (processKEvents st now (es.take j)).1.seenEventIds.contains
      (es.get ⟨i, hi⟩).eventId = true := by
  induction es generalizing st i j with
  | nil => exact absurd hi (by simp)
  | cons e es ih =>
    cases j with
    | zero => exact absurd hij (Nat.not_lt_zero i)
    | succ j' =>
      cases i with
      | zero =>
        show (processKEvents (processKEvent st now e).1 now
            (es.take j')).1.seenEventIds.contains e.eventId = true
        exact processKEvents_seen_mono _ _ _ _ (processKEvent_seen_self st now e)
      | succ i' =>
        exact ih (processKEvent st now e).1 i' j'
          (Nat.lt_of_succ_lt_succ hi) (Nat.lt_of_succ_lt_succ hij)

/-- C3: For every pair of signals with the same source-native event id
processed by the same monitor (Windows or Kubernetes), only the first is
accepted and processed: a signal whose id is already seen leaves the state
untouched and is decided `duplicate` (creating no incident), and in any
batch a later signal with the id of an earlier one is decided `duplicate`. -/
theorem duplicate_signal_rejected :
    (∀ (st : WState) (e : WEvent),
        st.seenEventIds.contains e.eventId = true →
        processWEvent st e = (st, WDecision.duplicate)) ∧
    (∀ (st : KState) (now : Nat) (e : KEvent),
        st.seenEventIds.contains e.eventId = true →
        processKEvent st now e = (st, KDecision.duplicate)) ∧
    (∀ (st : WState) (es : List WEvent) (i j : Nat)
        (hi : i < es.length) (hj : j < es.length), i < j →
        (es.get ⟨i, hi⟩).eventId = (es.get ⟨j, hj⟩).eventId →
        (processWEvents st es).2.get
          ⟨j, by rw [processWEvents_length]; exact hj⟩ =
          WDecision.duplicate) ∧
    (∀ (st : KState) (now : Nat) (es : List KEvent) (i j : Nat)
        (hi : i < es.length) (hj : j < es.length), i < j →
        (es.get ⟨i, hi⟩).eventId = (es.get ⟨j, hj⟩).eventId →
        (processKEvents st now es).2.get
          ⟨j, by rw [processKEvents_length]; exact hj⟩ =
          KDecision.duplicate) := by
  refine ⟨processWEvent_of_seen, processKEvent_of_seen, ?_, ?_⟩
  · intro st es i j hi hj hij hsame
    have hseen : (processWEvents st (es.take j)).1.seenEventIds.contains
        (es.get ⟨j, hj⟩).eventId = true := by
      rw [← hsame]
      exact processWEvents_seen_of_earlier st es i j hi hij
    rw [processWEvents_get st es j hj, processWEvent_of_seen _ _ hseen]
  · intro st now es i j hi hj hij hsame
    have hseen : (processKEvents st now (es.take j)).1.seenEventIds.contains
        (es.get ⟨j, hj⟩).eventId = true := by
      rw [← hsame]
      exact processKEvents_seen_of_earlier st now es i j hi hij
    rw [processKEvents_get st now es j hj, processKEvent_of_seen _ _ _ hseen]

/-- Witness for C3: a Windows batch and a Kubernetes batch that repeat one
event id; the repeat is decided `duplicate` in both monitors. -/
theorem duplicate_signal_rejected_witness :
    (processWEvents ⟨[]⟩
        [⟨5, some ⟨some 7003, some "Service Control Manager",
            ["Spooler service failed"]⟩, false⟩,
         ⟨5, none, false⟩]).2.get ⟨1, by decide⟩ = WDecision.duplicate ∧
    (processKEvents ⟨[], []⟩ 100
        [⟨9, true, none, some ("c", "ns", "pod")⟩,
         ⟨9, true, none, some ("c", "ns", "pod")⟩]).2.get ⟨1, by decide⟩ =
      KDecision.duplicate := by
  constructor
  · exact duplicate_signal_rejected.2.2.1 ⟨[]⟩ _ 0 1 (by decide) (by decide)
      (by decide) (by decide)
  · exact duplicate_signal_rejected.2.2.2 ⟨[], []⟩ 100 _ 0 1 (by decide)
      (by decide) (by decide) (by decide)

/-- C9: No exception escapes a poller cycle: `search_errors` always returns
normally (every raise inside it — per-event handling included — is caught),
every event of a fetched batch receives a decision (so a failure handling one
incident does not stop the processing of later ones), every scheduled poll
cycle therefore runs, and the per-event body genuinely can raise (so the
catch is not vacuous). -/
theorem poller_cycle_never_raises :
    (∀ (st : WState) (fetch : Except PyExc (List WEvent)),
        ∃ out, searchErrorsW st fetch = Except.ok out) ∧
    (∀ (st : WState) (evs : List WEvent),
        (processWEvents st evs).2.length = evs.length) ∧
    (∀ (st : WState) (fs : List (Except PyExc (List WEvent))),
        (runMonitorCycles st fs).2.length = fs.length) ∧
    (∃ e : WEvent, wTryBody e = Except.error PyExc.exception) := by
  refine ⟨?_, processWEvents_length, ?_, ?_⟩
  · intro st fetch
    cases fetch with
    | error exc => exact ⟨(st, []), rfl⟩
    | ok evs => exact ⟨processWEvents st evs, rfl⟩
  · intro st fs
    induction fs generalizing st with
    | nil => rfl
    | cons f fs ih =>
      cases f with
      | error exc => simp [runMonitorCycles, searchErrorsW, searchErrorsWBody, ih]
      | ok evs => simp [runMonitorCycles, searchErrorsW, searchErrorsWBody, ih]
  · exact ⟨⟨0, some ⟨some 7003, some "Service Control Manager", []⟩, true⟩, rfl⟩

/-- C4 counterexample: two OOMKilled signals for the same resource key
"ns/pod" in one poll (zero seconds apart, well inside the 60-second window).
The first (a plain-text message) is accepted and starts the cooldown.  The
second is a JSON audit event whose `objectRef` fields carry the defaults
("demo-app"/"stress-demo") and whose container list names no OOMKilled
container, so the gate falls back to the regex-extracted key "ns/pod" — and
accepts it without re-checking that key's cooldown, even though the cooldown
for "ns/pod" is active at that moment.  The claim would require the second
decision to be `cooledDown`. -/
theorem cooldown_bypassed_on_regex_fallback :
    kCoolActive
      (processKEvents ⟨[], []⟩ 100 [⟨1, true, none, some ("c", "ns", "pod")⟩]).1.cooldownTracker
      "ns/pod" 100 = true ∧
    (processKEvents ⟨[], []⟩ 100
        [⟨1, true, none, some ("c", "ns", "pod")⟩,
         ⟨2, true, some ⟨false, "demo-app", "stress-demo", []⟩,
            some ("c", "ns", "pod")⟩]).2 =
      [KDecision.accepted "ns/pod", KDecision.accepted "ns/pod"] := by
  constructor
  · rfl
  · rfl

/-- C4 (amended): a signal is rejected with reason `cooled_down` whenever the
cooldown check is reached for its resource key: in the JSON path the key the
gate checks is the objectRef-derived one, and in the non-JSON path the
regex-derived one; in both cases an active cooldown entry within the
60-second window yields `cooledDown`, no new incident, and an unchanged
cooldown tracker.  (When the JSON path falls back to regex extraction of a
different key, that key's cooldown is not re-checked — the case the
counterexample exhibits.) -/
theorem cooldown_rejects_within_window (st : KState) (now : Nat) (e : KEvent)
    (hnew : st.seenEventIds.contains e.eventId = false)
    (hoom : e.msgHasOOM = true) :
    (∀ j : KJson, e.json = some j → j.auditSkip = false →
        kCoolActive st.cooldownTracker (j.objNamespace ++ "/" ++ j.objName)
          now = true →
        processKEvent st now e =
          (⟨e.eventId :: st.seenEventIds, st.cooldownTracker⟩,
           KDecision.cooledDown)) ∧
    (∀ c ns pod, e.json = none → e.regexMatch = some (c, ns, pod) →
        kCoolActive st.cooldownTracker (ns ++ "/" ++ pod) now = true →
        processKEvent st now e =
          (⟨e.eventId :: st.seenEventIds, st.cooldownTracker⟩,
           KDecision.cooledDown)) := by
  constructor
  · intro j hj hskip hcool
    unfold processKEvent
    rw [if_neg (by rw [hnew]; decide)]
    unfold kGateBody
    rw [hj, hoom]
    simp [hskip, hcool]
  · intro c ns pod hj hrgx hcool
    unfold processKEvent
    rw [if_neg (by rw [hnew]; decide)]
    unfold kGateBody
    rw [hj, hrgx, hoom]
    simp [hcool]

/-- Witness for C4 (amended): a tracker with an entry 10 seconds old rejects
both a JSON-path signal and a non-JSON-path signal for that key. -/
theorem cooldown_rejects_within_window_witness :
    processKEvent ⟨[], [("ns/pod", 50)]⟩ 60
        ⟨3, true, some ⟨false, "ns", "pod", []⟩, none⟩ =
      (⟨[3], [("ns/pod", 50)]⟩, KDecision.cooledDown) ∧
    processKEvent ⟨[], [("ns/pod", 50)]⟩ 60 ⟨4, true, none, some ("c", "ns", "pod")⟩ =
      (⟨[4], [("ns/pod", 50)]⟩, KDecision.cooledDown) := by
  constructor
  · exact (cooldown_rejects_within_window ⟨[], [("ns/pod", 50)]⟩ 60
      ⟨3, true, some ⟨false, "ns", "pod", []⟩, none⟩ (by decide) (by decide)).1
      ⟨false, "ns", "pod", []⟩ rfl rfl (by decide)
  · exact (cooldown_rejects_within_window ⟨[], [("ns/pod", 50)]⟩ 60
      ⟨4, true, none, some ("c", "ns", "pod")⟩ (by decide) (by decide)).2
      "c" "ns" "pod" rfl rfl (by decide)

/-! Helper lemmas about the Windows retry loop. -/

theorem winLoop_attempts_le (env : WinEnv) (fuel : Nat) :
    ∀ (attempt : Nat) (cur : List String), 1 ≤ attempt →
    (winLoop env fuel attempt cur).attemptsUsed ≤ attempt - 1 + fuel ∧
    ∀ p ∈ (winLoop env fuel attempt cur).executed, p.1 ≤ attempt - 1 + fuel := by
  induction fuel with
  | zero =>
    intro attempt cur h
    constructor
    · simp [winLoop]
    · simp [winLoop]
  | succ fuel ih =>
    intro attempt cur h
    unfold winLoop
    cases hr : runWinSteps env attempt cur cur true with
    | done ok tr =>
      cases ok with
      | true =>
        constructor
        · simp; omega
        · intro p hp
          simp only [List.mem_map] at hp
          obtain ⟨s, _, rfl⟩ := hp
          simp; omega
      | false =>
        have hrest := ih (attempt + 1) cur (by omega)
        constructor
        · simp only []
          calc (winLoop env fuel (attempt + 1) cur).attemptsUsed
              ≤ attempt + 1 - 1 + fuel := hrest.1
            _ ≤ attempt - 1 + (fuel + 1) := by omega
        · intro p hp
          simp only [List.mem_append, List.mem_map] at hp
          rcases hp with ⟨s, _, rfl⟩ | hp
          · simp; omega
          · calc p.1 ≤ attempt + 1 - 1 + fuel := hrest.2 p hp
              _ ≤ attempt - 1 + (fuel + 1) := by omega
    | regen nxt tr =>
      have hrest := ih (attempt + 1) nxt (by omega)
      constructor
      · simp only []
        calc (winLoop env fuel (attempt + 1) nxt).attemptsUsed
            ≤ attempt + 1 - 1 + fuel := hrest.1
          _ ≤ attempt - 1 + (fuel + 1) := by omega
      · intro p hp
        simp only [List.mem_append, List.mem_map] at hp
        rcases hp with ⟨s, _, rfl⟩ | hp
        · simp; omega
        · calc p.1 ≤ attempt + 1 - 1 + fuel := hrest.2 p hp
            _ ≤ attempt - 1 + (fuel + 1) := by omega

/-- C5: For every environment (arbitrary effector and oracle behaviour),
every plan and every reference, the Windows remediation execution uses at
most `max_retries = 3` attempts, every executed step carries an attempt
number of at most 3, and the run terminates in exactly one of the two
outcomes (success — Succeeded — or failure — Exhausted). -/
theorem remediation_attempts_bounded (env : WinEnv) (steps : List String)
    (ref : Option String) :
    (applyRemediationWin env steps ref).attemptsUsed ≤ maxRetries ∧
    (∀ p ∈ (applyRemediationWin env steps ref).executed, p.1 ≤ maxRetries) ∧
    ((applyRemediationWin env steps ref).success = true ∨
      (applyRemediationWin env steps ref).success = false) := by
  have h := winLoop_attempts_le env maxRetries 1 steps (Nat.le_refl 1)
  have hb : 1 - 1 + maxRetries = maxRetries := by omega
  refine ⟨?_, ?_, ?_⟩
  · have := h.1
    rw [hb] at this
    exact this
  · intro p hp
    have := h.2 p hp
    rw [hb] at this
    exact this
  · cases hs : (applyRemediationWin env steps ref).success
    · right; rfl
    · left; rfl

/-- Witness for C5 at a concrete environment and plan. -/
theorem remediation_attempts_bounded_witness :
    (applyRemediationWin ⟨fun _ _ => ⟨false, "denied"⟩, fun _ => LLMOutcome.apiError⟩
        ["sc config Spooler depend= RPCSS"] (some "w5")).attemptsUsed ≤ maxRetries ∧
    (∀ p ∈ (applyRemediationWin ⟨fun _ _ => ⟨false, "denied"⟩, fun _ => LLMOutcome.apiError⟩
        ["sc config Spooler depend= RPCSS"] (some "w5")).executed, p.1 ≤ maxRetries) ∧
    ((applyRemediationWin ⟨fun _ _ => ⟨false, "denied"⟩, fun _ => LLMOutcome.apiError⟩
        ["sc config Spooler depend= RPCSS"] (some "w5")).success = true ∨
      (applyRemediationWin ⟨fun _ _ => ⟨false, "denied"⟩, fun _ => LLMOutcome.apiError⟩
        ["sc config Spooler depend= RPCSS"] (some "w5")).success = false) :=
  remediation_attempts_bounded _ _ _

theorem runWinSteps_all_success (env : WinEnv) (attempt : Nat)
    (cur : List String) (steps : List String)
    (hv : ∀ s ∈ steps, validWinStep s = true)
    (hx : ∀ s ∈ steps, (env.exec attempt s).success = true) :
    runWinSteps env attempt cur steps true = StepsOutcome.done true steps := by
  induction steps with
  | nil => rfl
  | cons s rest ih =>
    have hvs : validWinStep s = true := hv s (List.mem_cons_self s rest)
    have hxs : (env.exec attempt s).success = true :=
      hx s (List.mem_cons_self s rest)
    unfold runWinSteps
    rw [if_neg (by rw [hvs]; decide), if_pos hxs,
      ih (fun t ht => hv t (List.mem_cons_of_mem s ht))
         (fun t ht => hx t (List.mem_cons_of_mem s ht))]

/-- C7: A well-formed plan is executed exactly as given.  On the analyzer
side (agent.py lines 317-331), an oracle plan that passes the two-command
validation is returned unchanged — no fallback substitution.  On the
remediator side (fixer.py lines 39-47), a plan whose steps all pass the
per-step validity filter, with a successful effector, is executed in one
attempt, step by step in order, with no step skipped and the plan never
replaced. -/
theorem wellformed_plan_executed_as_given :
    (∀ (n d depDisplay : String) (rc : Option String) (steps : List String),
        validWinPlan n steps = true →
        (winAnalyzeAndBroadcast n d depDisplay
          (WinOracleReply.parsed rc (some steps))).steps = steps) ∧
    (∀ (env : WinEnv) (steps : List String) (ref : Option String),
        (∀ s ∈ steps, validWinStep s = true) →
        (∀ s ∈ steps, (env.exec 1 s).success = true) →
        applyRemediationWin env steps ref =
          ⟨true, 1, steps.map (fun s => (1, s)), steps,
           if pyTruthy ref then
             some (BroadcastMsg.mk "FixerAgent" "remediation applied"
               (remediationDetails steps))
           else none⟩) := by
  constructor
  · intro n d depDisplay rc steps hvalid
    show (if validWinPlan n steps = true then steps else winFallbackSteps n d) = steps
    rw [if_pos hvalid]
  · intro env steps ref hv hx
    have hrun := runWinSteps_all_success env 1 steps steps hv hx
    unfold applyRemediationWin maxRetries winLoop
    rw [hrun]
    simp

/-- Witness for C7: a concrete valid two-step plan under an all-success
effector is executed as given, and the analyzer keeps a concrete valid
oracle plan. -/
theorem wellformed_plan_executed_as_given_witness :
    (winAnalyzeAndBroadcast "Spooler" "RPCSS" "unknown"
        (WinOracleReply.parsed (some "rc")
          (some ["cmd /c \"sc config Spooler depend= RPCSS\"",
                 "Start-Service -Name Spooler"]))).steps =
      ["cmd /c \"sc config Spooler depend= RPCSS\"",
       "Start-Service -Name Spooler"] ∧
    applyRemediationWin ⟨fun _ _ => ⟨true, "done"⟩, fun _ => LLMOutcome.apiError⟩
        ["cmd /c \"sc config Spooler depend= RPCSS\"",
         "Start-Service -Name Spooler"] (some "w7") =
      ⟨true, 1,
       [(1, "cmd /c \"sc config Spooler depend= RPCSS\""),
        (1, "Start-Service -Name Spooler")],
       ["cmd /c \"sc config Spooler depend= RPCSS\"",
        "Start-Service -Name Spooler"],
       some (BroadcastMsg.mk "FixerAgent" "remediation applied"
         (remediationDetails
           ["cmd /c \"sc config Spooler depend= RPCSS\"",
            "Start-Service -Name Spooler"]))⟩ := by
  constructor
  · exact wellformed_plan_executed_as_given.1 "Spooler" "RPCSS" "unknown"
      (some "rc") _ (by decide)
  · have h := wellformed_plan_executed_as_given.2
      ⟨fun _ _ => ⟨true, "done"⟩, fun _ => LLMOutcome.apiError⟩
      ["cmd /c \"sc config Spooler depend= RPCSS\"",
       "Start-Service -Name Spooler"] (some "w7")
      (by intro s hs; fin_cases hs <;> decide)
      (by intro s hs; fin_cases hs <;> decide)
    rw [h]
    rfl

/-- C8 counterexample: under an effector that always fails, a one-step plan
exhausts its three attempts and the remediator returns failure — yet no
broadcast at all is emitted for the Exhausted outcome, refuting "both
terminal outcomes are broadcast".  And under an effector that fails only on
the first attempt, the run succeeds after a regeneration: the plan applied
in the terminal attempt is the regenerated default plan, while the broadcast
carries the original remediation steps — refuting "the broadcast carries the
literal list of commands actually applied in the terminal attempt". -/
theorem terminal_broadcast_counterexample :
    (applyRemediationWin ⟨fun _ _ => ⟨false, "failure"⟩, fun _ => LLMOutcome.apiError⟩
        ["sc config Spooler depend= RPCSS"] (some "c8")).success = false ∧
    (applyRemediationWin ⟨fun _ _ => ⟨false, "failure"⟩, fun _ => LLMOutcome.apiError⟩
        ["sc config Spooler depend= RPCSS"] (some "c8")).broadcast = none ∧
    (applyRemediationWin
        ⟨fun attempt _ => if attempt == 1 then ⟨false, "failure"⟩ else ⟨true, ""⟩,
         fun _ => LLMOutcome.apiError⟩
        ["sc config Spooler depend= RPCSS"] (some "c8")).broadcast =
      some (BroadcastMsg.mk "FixerAgent" "remediation applied"
        (remediationDetails ["sc config Spooler depend= RPCSS"])) ∧
    (applyRemediationWin
        ⟨fun attempt _ => if attempt == 1 then ⟨false, "failure"⟩ else ⟨true, ""⟩,
         fun _ => LLMOutcome.apiError⟩
        ["sc config Spooler depend= RPCSS"] (some "c8")).finalSteps =
      defaultWinSteps "Spooler" ∧
    defaultWinSteps "Spooler" ≠ ["sc config Spooler depend= RPCSS"] := by
  refine ⟨rfl, rfl, rfl, rfl, by decide⟩

/-- C8 (amended): only the Succeeded outcome is broadcast, and only when the
incident reference is truthy; an Exhausted run emits no broadcast; the
Windows broadcast joins the originally supplied remediation steps (not the
plan of the terminal attempt), and the Kubernetes broadcast joins the input
step list. -/
theorem succeeded_outcome_broadcast_only (env : WinEnv) (kenv : K8sEnv)
    (steps ksteps : List String) (ref kref : Option String) :
    (applyRemediationWin env steps ref).broadcast =
      (if (applyRemediationWin env steps ref).success && pyTruthy ref then
        some (BroadcastMsg.mk "FixerAgent" "remediation applied"
          (remediationDetails steps))
       else none) ∧
    (k8sApplyRemediation kenv ksteps kref).2 =
      (if (k8sApplyRemediation kenv ksteps kref).1 && pyTruthy kref then
        some (BroadcastMsg.mk "FixerAgent" "remediation applied"
          (remediationDetails ksteps))
       else none) := by
  constructor
  · rfl
  · unfold k8sApplyRemediation
    cases hs : k8sLoop kenv 0 ksteps <;> simp

/-- C10: Both the Snowflake and the Kubernetes remediator, handed an empty
remediation-steps list and a truthy incident reference, return success and
broadcast a "remediation applied" message although no command was executed
(the loop body never runs, `step_success` keeps its initial `True`). -/
theorem empty_plan_reports_success (env : SfEnv) (kenv : K8sEnv)
    (ref : Option String) (h : pyTruthy ref = true) :
    snowflakeApplyRemediation env [] ref =
      (true, some (BroadcastMsg.mk "FixerAgent" "remediation applied"
        (remediationDetails []))) ∧
    k8sApplyRemediation kenv [] ref =
      (true, some (BroadcastMsg.mk "FixerAgent" "remediation applied"
        (remediationDetails []))) := by
  constructor
  · unfold snowflakeApplyRemediation sfLoop
    rw [if_pos rfl, if_pos h]
    rfl
  · unfold k8sApplyRemediation k8sLoop
    rw [if_pos rfl, if_pos h]

/-- Witness for C10 at a concrete reference. -/
theorem empty_plan_reports_success_witness :
    snowflakeApplyRemediation ⟨fun _ _ => false⟩ [] (some "w10") =
      (true, some (BroadcastMsg.mk "FixerAgent" "remediation applied"
        (remediationDetails []))) ∧
    k8sApplyRemediation ⟨fun _ _ => Except.error ()⟩ [] (some "w10") =
      (true, some (BroadcastMsg.mk "FixerAgent" "remediation applied"
        (remediationDetails []))) :=
  empty_plan_reports_success ⟨fun _ _ => false⟩ ⟨fun _ _ => Except.error ()⟩
    (some "w10") (by decide)

/-! Helper lemmas about plan validation. -/

theorem listIsPrefixOf_append_self (l t : List Char) :
    l.isPrefixOf (l ++ t) = true := by
  induction l with
  | nil => simp
  | cons a as ih =>
    show (a == a && as.isPrefixOf (as ++ t)) = true
    simp [ih]

theorem listIsPrefixOf_self (l : List Char) : l.isPrefixOf l = true := by
  have h := listIsPrefixOf_append_self l []
  rwa [List.append_nil] at h

theorem listIsPrefixOf_mid (A B D nd dd : List Char) :
    (A ++ nd ++ B).isPrefixOf (A ++ nd ++ (B ++ [' ']) ++ dd ++ D) = true := by
  have h : A ++ nd ++ (B ++ [' ']) ++ dd ++ D =
      (A ++ nd ++ B) ++ ([' '] ++ dd ++ D) := by
    simp [List.append_assoc]
  rw [h]
  exact listIsPrefixOf_append_self _ _

theorem pyStartswith_append (a b : String) : pyStartswith a (a ++ b) = true := by
  simp only [pyStartswith, String.data_append]
  exact listIsPrefixOf_append_self a.data b.data

theorem pyStartswith_self (a : String) : pyStartswith a a = true := by
  exact listIsPrefixOf_self a.data

theorem validWinPlan_fallback (n d : String) :
    validWinPlan n (winFallbackSteps n d) = true := by
  show (true && pyStartswith ("cmd /c \"sc config " ++ n ++ " depend=")
      ("cmd /c \"sc config " ++ n ++ " depend= " ++ d ++ "\"") &&
      pyStartswith ("Start-Service -Name " ++ n) ("Start-Service -Name " ++ n))
      = true
  have h1 : pyStartswith ("cmd /c \"sc config " ++ n ++ " depend=")
      ("cmd /c \"sc config " ++ n ++ " depend= " ++ d ++ "\"") = true := by
    simp only [pyStartswith, String.data_append]
    have hd : ([' ', 'd', 'e', 'p', 'e', 'n', 'd', '=', ' '] : List Char) =
        [' ', 'd', 'e', 'p', 'e', 'n', 'd', '='] ++ [' '] := by decide
    rw [hd]
    exact listIsPrefixOf_mid _ _ _ _ _
  rw [h1, pyStartswith_self]
  rfl

/-- C6 counterexample: a Snowflake error message mentioning an invalid JWT
token makes the analyzer return an *empty* remediation plan with an
"analysis complete" broadcast (not `AnalysisFailed`); the fix-queue handoff
then hands that empty plan to the Snowflake remediator, which proceeds and
reports success.  Moreover an oracle parse failure makes the analyzer return
the raw, unvalidated reply text as the plan — neither a validated plan nor
the deterministic fallback.  Both paths refute "the engine never enters
Remediating with an unvalidated or empty plan". -/
theorem unvalidated_plan_reaches_remediation :
    (snowflakeAnalyzeAndBroadcast
        "Snowflake Error in lg:\nJWT token is invalid\nReference: c6"
        (SfOracleReply.parsed none none)).steps = [] ∧
    (snowflakeAnalyzeAndBroadcast
        "Snowflake Error in lg:\nJWT token is invalid\nReference: c6"
        (SfOracleReply.parsed none none)).status = "analysis complete" ∧
    receiveErrorSnowflake true ⟨fun _ _ => true⟩
        ⟨"Snowflake Error in lg:\nJWT token is invalid\nReference: c6",
         "Invalid JWT token for Snowflake key pair authentication", [],
         "snowflake", some "c6"⟩ =
      some (true, some (BroadcastMsg.mk "FixerAgent" "remediation applied"
        (remediationDetails []))) ∧
    (snowflakeAnalyzeAndBroadcast "Snowflake Error in lg:\nSQL access error"
        (SfOracleReply.parseError "raw oracle reply")).steps =
      ["raw oracle reply"] := by
  refine ⟨?_, ?_, rfl, ?_⟩ <;> decide

/-- C6 (amended): the validated-or-fallback guarantee holds on the Windows
analyzer path once a service name is extracted — the plan it emits always
passes the two-command validation (it is the oracle's validated plan or the
deterministic fallback) — and the no-service-name path returns an empty plan
with an "analysis failed" broadcast.  The Snowflake analyzer offers no such
guarantee (see the counterexample): empty or unvalidated plans are handed to
the remediation executor, whose only protection is the per-step command
filter at execution time. -/
theorem windows_plan_always_validated :
    (∀ (n d depDisplay : String) (reply : WinOracleReply),
        validWinPlan n (winAnalyzeAndBroadcast n d depDisplay reply).steps = true) ∧
    winAnalyzeNoServiceName.steps = [] ∧
    winAnalyzeNoServiceName.status = "analysis failed" := by
  refine ⟨?_, rfl, rfl⟩
  intro n d depDisplay reply
  cases reply with
  | apiError => exact validWinPlan_fallback n d
  | parseError =>
    show validWinPlan n
        (if validWinPlan n (winFallbackSteps n d) = true then winFallbackSteps n d
         else winFallbackSteps n d) = true
    rw [if_pos (validWinPlan_fallback n d)]
    exact validWinPlan_fallback n d
  | parsed rc osteps =>
    by_cases h : validWinPlan n (osteps.getD []) = true
    · show validWinPlan n
          (if validWinPlan n (osteps.getD []) = true then osteps.getD []
           else winFallbackSteps n d) = true
      rw [if_pos h]
      exact h
    · show validWinPlan n
          (if validWinPlan n (osteps.getD []) = true then osteps.getD []
           else winFallbackSteps n d) = true
      rw [if_neg h]
      exact validWinPlan_fallback n d

end LogAnalytics
